import Mathlib

/-!
Verification of the Flight-Radar-3D real-time globe engine.

This file gives a shallow embedding of the data model and operations of the
repository (`FlightLayer.ts` and the `GlobeEngine` class) and proves or
refutes the specified properties about them.

Conventions of the embedding:
- JS numbers are modelled as elements of a linear ordered field; the purely
  arithmetic parts (snapshot merging, nearest search, bucketing) are kept
  polymorphic so they can be instantiated at the rationals and executed,
  while the trigonometric parts (dead reckoning, quaternion camera math)
  are instantiated at the reals.
- Stateful methods become pure functions from state to state.
-/

namespace FlightRadar

/-- Aircraft size class derived from the ADS-B category, per `PlaneClass`
in `FlightLayer.ts`. -/
inductive PlaneClass where
  | Light : PlaneClass
  | Medium : PlaneClass
  | Heavy : PlaneClass
deriving DecidableEq, Repr

/-- The classification rule `classifyFlight` of `FlightLayer.ts`:
categories 4..7 are Heavy, category 3 is Medium, everything else Light. -/
def classifyFlight {α : Type} [LinearOrderedField α] (cat : α) : PlaneClass :=
  if 4 ≤ cat ∧ cat ≤ 7 then PlaneClass.Heavy
  else if cat = 3 then PlaneClass.Medium
  else PlaneClass.Light

/-- The `LiveFlight` record of `FlightLayer.ts`. -/
structure LiveFlight (α : Type) where
  id : String
  lat : α
  lng : α
  alt : α
  vel : α
  hdg : α
  vr : α
  cs : String
  origin : String
  squawk : String
  cat : α
  lastContact : α
  baroAlt : α
  spi : Bool
deriving DecidableEq, Repr

/-- The `FlightData` snapshot record consumed by `setFlights`. -/
structure FlightData (α : Type) where
  id : String
  lat : α
  lng : α
  alt : α
  vel : α
  hdg : α
  vr : α
  cs : String
  origin : String
  squawk : String
  cat : α
  lastContact : α
  baroAlt : α
  spi : Bool
deriving DecidableEq, Repr

section Layer

variable {α : Type} [LinearOrderedField α]

/-- The `oldMap` built at the top of `FlightLayer.setFlights`: a JS `Map`
filled by iterating over `live`, so a later entry with the same id
overwrites an earlier one. `lookupLast live id` is `oldMap.get(id)`. -/
def lookupLast (live : List (LiveFlight α)) (id : String) : Option (LiveFlight α) :=
  live.foldl (fun acc f => if f.id = id then some f else acc) none

/-- The body of the `flights.map` inside `FlightLayer.setFlights`: an id
already present has its kinematic and display fields replaced and its
latitude/longitude blended 30 percent toward the snapshot; a new id is
inserted verbatim. -/
def processRecord (live : List (LiveFlight α)) (f : FlightData α) : LiveFlight α :=
  match lookupLast live f.id with
  | some old =>
      { old with
        hdg := f.hdg
        vel := f.vel
        vr := f.vr
        alt := f.alt
        cs := f.cs
        origin := f.origin
        squawk := f.squawk
        cat := f.cat
        lastContact := f.lastContact
        baroAlt := f.baroAlt
        spi := f.spi
        lat := old.lat + (f.lat - old.lat) * 0.3
        lng := old.lng + (f.lng - old.lng) * 0.3 }
  | none =>
      { id := f.id, lat := f.lat, lng := f.lng, alt := f.alt, vel := f.vel,
        hdg := f.hdg, vr := f.vr, cs := f.cs, origin := f.origin,
        squawk := f.squawk, cat := f.cat, lastContact := f.lastContact,
        baroAlt := f.baroAlt, spi := f.spi }

/-- `FlightLayer.setFlights`: the new live list is the snapshot list mapped
through `processRecord` (ids absent from the snapshot are dropped). -/
def setFlights (live : List (LiveFlight α)) (flights : List (FlightData α)) :
    List (LiveFlight α) :=
  flights.map (processRecord live)

/-- The squared-degree distance computed inside the loop of
`FlightLayer.findNearest`, with the single plus-or-minus 360 longitude
correction. -/
def dist2 (lat lng : α) (f : LiveFlight α) : α :=
  let dLng0 := f.lng - lng
  let dLng1 := if dLng0 > 180 then dLng0 - 360 else dLng0
  let dLng2 := if dLng1 < -180 then dLng1 + 360 else dLng1
  let dLat := f.lat - lat
  dLat * dLat + dLng2 * dLng2

/-- The loop of `FlightLayer.findNearest`, carrying `bestId` and `bestDist`. -/
def findNearestAux (lat lng : α) :
    List (LiveFlight α) → Option String → α → Option String
  | [], bestId, _ => bestId
  | f :: rest, bestId, bestDist =>
      let d := dist2 lat lng f
      if d < bestDist then findNearestAux lat lng rest (some f.id) d
      else findNearestAux lat lng rest bestId bestDist

/-- `FlightLayer.findNearest`: best distance starts at `maxDeg * maxDeg`
and only strict improvements are taken. -/
def findNearest (live : List (LiveFlight α)) (lat lng maxDeg : α) : Option String :=
  findNearestAux lat lng live none (maxDeg * maxDeg)

/-- `MAX_INSTANCES` of `FlightLayer.ts`. -/
def MAX_INSTANCES : Nat := 6000

/-- The entities considered by `_rebuildInstances`: indices
`i < min live.length MAX_INSTANCES`, i.e. the first `MAX_INSTANCES`
entities in snapshot order. -/
def rendered (live : List (LiveFlight α)) : List (LiveFlight α) :=
  live.take MAX_INSTANCES

/-- The per-class bucket filled by `_rebuildInstances`: the rendered
entities whose category classifies to `c`, in order. Its length is the
instanced mesh's `count` for that class. -/
def bucket (live : List (LiveFlight α)) (c : PlaneClass) : List (LiveFlight α) :=
  (rendered live).filter (fun f => classifyFlight f.cat = c)

end Layer

example : classifyFlight (5 : ℚ) = PlaneClass.Heavy := by decide
example : classifyFlight (3 : ℚ) = PlaneClass.Medium := by decide
example : classifyFlight (-2 : ℚ) = PlaneClass.Light := by decide
example : classifyFlight (7/2 : ℚ) = PlaneClass.Light := by norm_num [classifyFlight]

/-! ## Dead-reckoning integration (`FlightLayer.update`)

`update` uses trigonometry, so it is modelled over the reals. -/

/-- `DEG_TO_RAD` of `FlightLayer.ts`. -/
noncomputable def DEG_TO_RAD : ℝ := Real.pi / 180

/-- The latitude increment computed by `FlightLayer.update` for one entity:
`velMs * cos(hdgRad) * dt / 111320` with `velMs = vel * 0.5144`. -/
noncomputable def dLatStep (dt : ℝ) (f : LiveFlight ℝ) : ℝ :=
  f.vel * 0.5144 * Real.cos (f.hdg * DEG_TO_RAD) * dt / 111320

/-- The longitude increment computed by `FlightLayer.update` for one entity:
`velMs * sin(hdgRad) * dt / (111320 * cosLat)` when `cosLat > 0.001`,
otherwise zero (pole guard). -/
noncomputable def dLngStep (dt : ℝ) (f : LiveFlight ℝ) : ℝ :=
  if Real.cos (f.lat * DEG_TO_RAD) > 0.001 then
    f.vel * 0.5144 * Real.sin (f.hdg * DEG_TO_RAD) * dt /
      (111320 * Real.cos (f.lat * DEG_TO_RAD))
  else 0

/-- The two sequential longitude corrections at the end of the
`FlightLayer.update` loop: subtract 360 if above 180, then add 360 if the
result is below -180. -/
noncomputable def wrapLng (x : ℝ) : ℝ :=
  let a := if x > 180 then x - 360 else x
  if a < -180 then a + 360 else a

/-- One entity's step of `FlightLayer.update(dt)`. -/
noncomputable def updateFlight (dt : ℝ) (f : LiveFlight ℝ) : LiveFlight ℝ :=
  { f with
    lat := f.lat + dLatStep dt f
    lng := wrapLng (f.lng + dLngStep dt f) }

/-- `FlightLayer.update(dt)` applied to the whole live list (the early
return on an empty list is the identity, which `List.map` also gives). -/
noncomputable def updateLayer (dt : ℝ) (live : List (LiveFlight ℝ)) :
    List (LiveFlight ℝ) :=
  live.map (updateFlight dt)

/-! ## Three.js quaternion and Euler machinery used by the camera -/

/-- A 3D vector over the reals. -/
structure Vec3 where
  x : ℝ
  y : ℝ
  z : ℝ

/-- Dot product. -/
noncomputable def dotV (a b : Vec3) : ℝ := a.x * b.x + a.y * b.y + a.z * b.z

/-- A quaternion, components ordered as in Three.js. -/
structure Quat where
  x : ℝ
  y : ℝ
  z : ℝ
  w : ℝ

/-- `Number.EPSILON` of JavaScript. -/
noncomputable def jsEPSILON : ℝ := 1 / 2 ^ 52

/-- `THREE.Quaternion.normalize`: divide by the length, or produce the
identity quaternion when the length is zero. -/
noncomputable def quatNormalize (q : Quat) : Quat :=
  let l := Real.sqrt (q.x ^ 2 + q.y ^ 2 + q.z ^ 2 + q.w ^ 2)
  if l = 0 then ⟨0, 0, 0, 1⟩ else ⟨q.x / l, q.y / l, q.z / l, q.w / l⟩

/-- `THREE.Quaternion.setFromUnitVectors(vFrom, vTo)`: the minimal rotation
taking `vFrom` to `vTo`, with the antiparallel special case. -/
noncomputable def setFromUnitVectors (vFrom vTo : Vec3) : Quat :=
  let r := dotV vFrom vTo + 1
  if r < jsEPSILON then
    (if |vFrom.x| > |vFrom.z| then quatNormalize ⟨-vFrom.y, vFrom.x, 0, 0⟩
     else quatNormalize ⟨0, -vFrom.z, vFrom.y, 0⟩)
  else
    quatNormalize ⟨vFrom.y * vTo.z - vFrom.z * vTo.y,
                   vFrom.z * vTo.x - vFrom.x * vTo.z,
                   vFrom.x * vTo.y - vFrom.y * vTo.x, r⟩

/-- `THREE.Quaternion.multiplyQuaternions(a, b)`. -/
noncomputable def quatMul (a b : Quat) : Quat :=
  ⟨a.x * b.w + a.w * b.x + a.y * b.z - a.z * b.y,
   a.y * b.w + a.w * b.y + a.z * b.x - a.x * b.z,
   a.z * b.w + a.w * b.z + a.x * b.y - a.y * b.x,
   a.w * b.w - a.x * b.x - a.y * b.y - a.z * b.z⟩

/-- `THREE.Quaternion.setFromAxisAngle(axis, angle)` (axis assumed unit). -/
noncomputable def setFromAxisAngle (axis : Vec3) (angle : ℝ) : Quat :=
  ⟨axis.x * Real.sin (angle / 2), axis.y * Real.sin (angle / 2),
   axis.z * Real.sin (angle / 2), Real.cos (angle / 2)⟩

/-- The engine's `_qTilt`: the cosmetic z tilt of -0.18 radians. -/
noncomputable def qTilt : Quat := setFromAxisAngle ⟨0, 0, 1⟩ (-0.18)

/-- A 3x3 rotation matrix, entry `mij` being row `i`, column `j` (the same
naming Three.js uses for `Matrix4` elements). -/
structure M3 where
  m11 : ℝ
  m12 : ℝ
  m13 : ℝ
  m21 : ℝ
  m22 : ℝ
  m23 : ℝ
  m31 : ℝ
  m32 : ℝ
  m33 : ℝ

/-- The rotation part of `THREE.Matrix4.makeRotationFromQuaternion`
(`Matrix4.compose` with unit scale), for a unit quaternion. -/
noncomputable def quatToM3 (q : Quat) : M3 :=
  ⟨1 - 2 * (q.y ^ 2 + q.z ^ 2), 2 * (q.x * q.y - q.w * q.z), 2 * (q.x * q.z + q.w * q.y),
   2 * (q.x * q.y + q.w * q.z), 1 - 2 * (q.x ^ 2 + q.z ^ 2), 2 * (q.y * q.z - q.w * q.x),
   2 * (q.x * q.z - q.w * q.y), 2 * (q.y * q.z + q.w * q.x), 1 - 2 * (q.x ^ 2 + q.y ^ 2)⟩

/-- The rotation matrix produced by `THREE.Matrix4.makeRotationFromEuler`
for order XYZ, which is how the engine's Euler assignment
`rotation.x, rotation.y, rotation.z` is applied to the globe group. -/
noncomputable def eulerXYZM (ex ey ez : ℝ) : M3 :=
  let a := Real.cos ex
  let b := Real.sin ex
  let c := Real.cos ey
  let d := Real.sin ey
  let e := Real.cos ez
  let f := Real.sin ez
  ⟨c * e, -(c * f), d,
   a * f + b * e * d, a * e - b * f * d, -(b * c),
   b * f - a * e * d, b * e + a * f * d, a * c⟩

/-- `MathUtils.clamp(value, min, max)` of Three.js. -/
noncomputable def clampR (v lo hi : ℝ) : ℝ := max lo (min hi v)

/-- JavaScript's `Math.atan2`. -/
noncomputable def atan2R (y x : ℝ) : ℝ :=
  if 0 < x then Real.arctan (y / x)
  else if x < 0 then
    (if 0 ≤ y then Real.arctan (y / x) + Real.pi
     else Real.arctan (y / x) - Real.pi)
  else if 0 < y then Real.pi / 2
  else if y < 0 then -(Real.pi / 2)
  else 0

/-- An Euler-angle triple, order XYZ. -/
structure EulerAngles where
  ex : ℝ
  ey : ℝ
  ez : ℝ

/-- `THREE.Euler.setFromRotationMatrix(m, 'XYZ')` (which is what
`Euler.setFromQuaternion(q, 'XYZ')` delegates to). -/
noncomputable def eulerFromM3 (m : M3) : EulerAngles :=
  let ey := Real.arcsin (clampR m.m13 (-1) 1)
  if |m.m13| < 0.9999999 then
    ⟨atan2R (-m.m23) m.m33, ey, atan2R (-m.m12) m.m11⟩
  else
    ⟨atan2R m.m32 m.m22, ey, 0⟩

/-! ## The deselect capture of `GlobeEngine.setSelectedFlight(null)` -/

/-- The offsets stored by `setSelectedFlight(null)` when tracking ends:
`_userRotX := euler.x - 0.12` and `_userRotY := euler.y`, where `euler` is
the XYZ decomposition of the globe group's current quaternion. -/
noncomputable def captureOffsets (m : M3) : ℝ × ℝ :=
  ((eulerFromM3 m).ex - 0.12, (eulerFromM3 m).ey)

/-- The orientation the globe has on the next free-mode frame after the
capture: `_frame` applies `rotation.x = 0.12 + _userRotX`,
`rotation.y = _userRotY`, `rotation.z = -0.18` as an XYZ Euler rotation. -/
noncomputable def resumeOrientation (m : M3) : M3 :=
  eulerXYZM (0.12 + (captureOffsets m).1) (captureOffsets m).2 (-0.18)

/-- The tracking target quaternion computed in `_frame` for a flight whose
globe-local unit position is `p`: centre `p` on the +Z axis, then apply
the cosmetic tilt (`_qTarget = _qTilt * _qCenter`). The slerp in `_frame`
converges to exactly this orientation while the flight stays put. -/
noncomputable def trackTargetQuat (p : Vec3) : Quat :=
  quatMul qTilt (setFromUnitVectors p ⟨0, 0, 1⟩)

/-- The tracking target orientation as a rotation matrix. -/
noncomputable def trackTargetM (p : Vec3) : M3 :=
  quatToM3 (trackTargetQuat p)

/-! ## Picking (`GlobeEngine._boundClick`) -/

/-- A ray with origin and direction, as produced by
`Raycaster.setFromCamera`. -/
structure Ray where
  origin : Vec3
  dir : Vec3

/-- `Ray.at(t)`. -/
noncomputable def rayAt (r : Ray) (t : ℝ) : Vec3 :=
  ⟨r.origin.x + r.dir.x * t, r.origin.y + r.dir.y * t, r.origin.z + r.dir.z * t⟩

/-- `THREE.Ray.intersectSphere(sphere, target)`: `none` when the ray misses
the sphere or the sphere lies entirely behind the origin. -/
noncomputable def intersectSphere (center : Vec3) (radius : ℝ) (r : Ray) :
    Option Vec3 :=
  let v := (⟨center.x - r.origin.x, center.y - r.origin.y, center.z - r.origin.z⟩ : Vec3)
  let tca := dotV v r.dir
  let d2 := dotV v v - tca * tca
  let radius2 := radius * radius
  if d2 > radius2 then none
  else
    let thc := Real.sqrt (radius2 - d2)
    let t0 := tca - thc
    let t1 := tca + thc
    if t1 < 0 then none
    else if t0 < 0 then some (rayAt r t1)
    else some (rayAt r t0)

/-- Apply a 3x3 matrix to a vector (the rotation part of
`Vector3.applyMatrix4` for the globe group's orientation, whose
translation is zero). -/
noncomputable def mulVecM (m : M3) (v : Vec3) : Vec3 :=
  ⟨m.m11 * v.x + m.m12 * v.y + m.m13 * v.z,
   m.m21 * v.x + m.m22 * v.y + m.m23 * v.z,
   m.m31 * v.x + m.m32 * v.y + m.m33 * v.z⟩

/-- The local-point to latitude/longitude conversion inside `_boundClick`:
`lat = asin(y/r)` in degrees, `lng = atan2(z, -x)` in degrees minus 180,
then a single +360 correction when below -180. -/
noncomputable def pointToLatLng (p : Vec3) : ℝ × ℝ :=
  let r := Real.sqrt (dotV p p)
  let lat := Real.arcsin (p.y / r) * (180 / Real.pi)
  let lng0 := atan2R p.z (-p.x) * (180 / Real.pi) - 180
  let lng := if lng0 < -180 then lng0 + 360 else lng0
  (lat, lng)

/-- The globe radius `R` of the engine. -/
noncomputable def engineR : ℝ := 5

/-- Outcome of one run of the click handler: either the handler returned
without invoking the flight-picked callback, or it invoked the callback
with the given argument. -/
inductive ClickResult where
  | noCallback : ClickResult
  | callback : Option String → ClickResult
deriving DecidableEq

/-- `GlobeEngine._boundClick` for a left-button click, given the inverse
`Minv` of the globe group's current orientation and the live flight list.
The hit sphere is centred at the globe group's world origin (the group is
never translated) with radius `R * 1.02`; a miss returns without calling
the callback; a hit converts to lat/lng and calls the callback with
`findNearest(lat, lng, 5)`. -/
noncomputable def boundClick (Minv : M3) (live : List (LiveFlight ℝ)) (ray : Ray) :
    ClickResult :=
  match intersectSphere ⟨0, 0, 0⟩ (engineR * 1.02) ray with
  | none => ClickResult.noCallback
  | some hit =>
      let p := mulVecM Minv hit
      let ll := pointToLatLng p
      ClickResult.callback (findNearest live ll.1 ll.2 5)

/-! ## Engine state and its public mutators -/

/-- `THREE.Quaternion.setFromEuler` for order XYZ: how assigning
`rotation.x`, `rotation.y`, `rotation.z` positions the globe group. -/
noncomputable def quatFromEulerXYZ (x y z : ℝ) : Quat :=
  let c1 := Real.cos (x / 2)
  let c2 := Real.cos (y / 2)
  let c3 := Real.cos (z / 2)
  let s1 := Real.sin (x / 2)
  let s2 := Real.sin (y / 2)
  let s3 := Real.sin (z / 2)
  ⟨s1 * c2 * c3 + c1 * s2 * s3,
   c1 * s2 * c3 - s1 * c2 * s3,
   c1 * c2 * s3 + s1 * s2 * c3,
   c1 * c2 * c3 - s1 * s2 * s3⟩

/-- `THREE.Vector3.normalize` (a zero vector is left unchanged). -/
noncomputable def normalizeV (v : Vec3) : Vec3 :=
  let l := Real.sqrt (dotV v v)
  if l = 0 then v else ⟨v.x / l, v.y / l, v.z / l⟩

/-- `THREE.Quaternion.slerp(qb, t)` applied to `qa`. -/
noncomputable def slerp (qa qb : Quat) (t : ℝ) : Quat :=
  if t = 0 then qa
  else if t = 1 then qb
  else
    let c0 := qa.w * qb.w + qa.x * qb.x + qa.y * qb.y + qa.z * qb.z
    let qb' := if c0 < 0 then (⟨-qb.x, -qb.y, -qb.z, -qb.w⟩ : Quat) else qb
    let c := if c0 < 0 then -c0 else c0
    if 1 ≤ c then qa
    else
      let s2 := 1 - c ^ 2
      if s2 ≤ jsEPSILON then
        quatNormalize ⟨(1 - t) * qa.x + t * qb'.x, (1 - t) * qa.y + t * qb'.y,
                       (1 - t) * qa.z + t * qb'.z, (1 - t) * qa.w + t * qb'.w⟩
      else
        let sh := Real.sqrt s2
        let h := atan2R sh c
        ⟨qa.x * (Real.sin ((1 - t) * h) / sh) + qb'.x * (Real.sin (t * h) / sh),
         qa.y * (Real.sin ((1 - t) * h) / sh) + qb'.y * (Real.sin (t * h) / sh),
         qa.z * (Real.sin ((1 - t) * h) / sh) + qb'.z * (Real.sin (t * h) / sh),
         qa.w * (Real.sin ((1 - t) * h) / sh) + qb'.w * (Real.sin (t * h) / sh)⟩

/-- Modelled from the spec: `latLngToVector3` lives in `@/data/countries`,
which is not among the provided sources; the spec describes it as the
standard spherical-to-Cartesian conversion (GeoProjector `toCartesian`).
The axis convention is fixed by the inverse used in `_boundClick`
(`lat = asin(y/r)`, `lng = atan2(z, -x) - 180` degrees). -/
noncomputable def latLngToVector3 (lat lng r : ℝ) : Vec3 :=
  ⟨r * Real.cos (lat * DEG_TO_RAD) * Real.cos (lng * DEG_TO_RAD),
   r * Real.sin (lat * DEG_TO_RAD),
   -(r * Real.cos (lat * DEG_TO_RAD) * Real.sin (lng * DEG_TO_RAD))⟩

/-- `FlightLayer.getLiveFlight(id)`. -/
def getLiveFlight (live : List (LiveFlight ℝ)) (id : String) : Option (ℝ × ℝ) :=
  (live.find? (fun l => l.id = id)).map (fun f => (f.lat, f.lng))

/-- The `GlobeEngine` fields read or written by the frame loop and the
public mutators. Rendering output, the decorative FX subsystems, the
pointer-parallax smoothing and the camera position (pure visual outputs
not read back by any mutator) are outside the modelled state. -/
structure EngineState where
  disposed : Bool
  paused : Bool
  vis : Bool
  dragging : Bool
  userRotX : ℝ
  userRotY : ℝ
  dragVelX : ℝ
  dragVelY : ℝ
  userZoom : ℝ
  preTrackZoom : ℝ
  trackingZoom : Bool
  targetCamZ : ℝ
  camZ : ℝ
  touchStartDist : ℝ
  touchStartZoom : ℝ
  selectedFlight : Option String
  prevTrackedId : Option String
  trackTransition : ℝ
  orientation : Quat
  flightLayer : Option (List (LiveFlight ℝ))
  layerSelectedId : Option String

/-- The state established by the `GlobeEngine` constructor (`_init` sets
`rotation.z = -0.18` and `rotation.x = 0.12`; the default zoom is 22 on
narrow/mobile viewports and 16 otherwise). -/
noncomputable def initEngineState (isMobile : Bool) : EngineState :=
  let z : ℝ := if isMobile then 22 else 16
  { disposed := false
    paused := false
    vis := true
    dragging := false
    userRotX := 0
    userRotY := 0
    dragVelX := 0
    dragVelY := 0
    userZoom := z
    preTrackZoom := z
    trackingZoom := false
    targetCamZ := z
    camZ := z
    touchStartDist := 0
    touchStartZoom := 16
    selectedFlight := none
    prevTrackedId := none
    trackTransition := 0
    orientation := quatFromEulerXYZ 0.12 0 (-0.18)
    flightLayer := some []
    layerSelectedId := none }

/-- `GlobeEngine.dispose`: sets the disposed flag and drops the flight
layer (`_flightLayer = null`); the remaining work is deregistration and
GPU resource release, which has no represented state. -/
def dispose (s : EngineState) : EngineState :=
  { s with disposed := true, flightLayer := none, layerSelectedId := none }

/-- `GlobeEngine.setFlights`: forwards to the flight layer through the
null-safe call `this._flightLayer?.setFlights(flights)`. -/
noncomputable def setFlightsE (fs : List (FlightData ℝ)) (s : EngineState) : EngineState :=
  match s.flightLayer with
  | none => s
  | some l => { s with flightLayer := some (setFlights l fs) }

/-- `GlobeEngine.stepZoom(delta)`. -/
noncomputable def stepZoomE (δ : ℝ) (s : EngineState) : EngineState :=
  { s with userZoom := max 6.5 (min 30 (s.userZoom + δ)) }

/-- `GlobeEngine.zoomIn`. -/
noncomputable def zoomInE (s : EngineState) : EngineState :=
  let s1 := if s.trackingZoom then s
            else { s with preTrackZoom := s.userZoom, trackingZoom := true }
  { s1 with userZoom := min s1.userZoom 9 }

/-- `GlobeEngine.togglePause`. -/
def togglePauseE (s : EngineState) : EngineState :=
  { s with paused := !s.paused }

/-- `GlobeEngine.setSelectedFlight`: on deselect while tracking, the
orientation quaternion is decomposed into XYZ Euler angles and the x/y
components are stored back into the free-mode offsets; the pre-tracking
zoom is restored. -/
noncomputable def setSelectedFlightE (f : Option String) (s : EngineState) :
    EngineState :=
  let wasTracking := s.selectedFlight.isSome
  let s1 := { s with selectedFlight := f }
  let s4 :=
    match f with
    | some _ => s1
    | none =>
        let s2 := { s1 with prevTrackedId := none }
        let s3 :=
          if wasTracking then
            let e := eulerFromM3 (quatToM3 s.orientation)
            { s2 with userRotY := e.ey, userRotX := e.ex - 0.12,
                      dragVelX := 0, dragVelY := 0 }
          else s2
        if s3.trackingZoom then
          { s3 with userZoom := s3.preTrackZoom, trackingZoom := false }
        else s3
  match s4.flightLayer with
  | none => s4
  | some _ => { s4 with layerSelectedId := f }

/-- `GlobeEngine._boundWheel`: normalize the delta by `deltaMode`, scale by
0.008, and clamp the user zoom into the 6.5 to 30 range. -/
noncomputable def wheelE (deltaY : ℝ) (deltaMode : Nat) (s : EngineState) :
    EngineState :=
  let delta := if deltaMode = 1 then deltaY * 16
               else if deltaMode = 2 then deltaY * 100
               else deltaY
  { s with userZoom := max 6.5 (min 30 (s.userZoom + delta * 0.008)) }

/-- The two-finger branch of `GlobeEngine._boundTouchStart`: record the
pinch baseline distance and the zoom at gesture start. -/
noncomputable def touchStartTwoE (x1 y1 x2 y2 : ℝ) (s : EngineState) : EngineState :=
  { s with dragging := false
           touchStartDist := Real.sqrt ((x1 - x2) ^ 2 + (y1 - y2) ^ 2)
           touchStartZoom := s.userZoom }

/-- The two-finger branch of `GlobeEngine._boundTouchMove`: additive
pinch-zoom from the gesture baseline, clamped into 6.5 to 30; no-op when
no baseline was recorded. -/
noncomputable def pinchMoveE (x1 y1 x2 y2 : ℝ) (s : EngineState) : EngineState :=
  let dist := Real.sqrt ((x1 - x2) ^ 2 + (y1 - y2) ^ 2)
  if s.touchStartDist > 0 then
    let z := max 6.5 (min 30 (s.touchStartZoom + (s.touchStartDist - dist) * 0.06))
    { s with userZoom := z }
  else s

/-- `GlobeEngine._boundTouchEnd` (state effects only). -/
def touchEndE (s : EngineState) : EngineState :=
  { s with dragging := false, touchStartDist := 0 }

/-- `GlobeEngine._frame`: guarded by the disposed flag, then by
visibility; clamps `dt` to 0.05; integrates the flight layer; advances the
camera state machine (quaternion slerp toward the tracking target while a
selected flight has a live position, Euler free-orbit otherwise) and eases
the camera distance. -/
noncomputable def frameStep (dtRaw : ℝ) (s : EngineState) : EngineState :=
  if s.disposed then s
  else if !s.vis then s
  else
    let dt := min dtRaw 0.05
    let fl := s.flightLayer.map (updateLayer dt)
    let livePos := match s.selectedFlight with
      | some id => fl.bind (fun l => getLiveFlight l id)
      | none => none
    let s0 := { s with flightLayer := fl }
    let s1 :=
      match s.selectedFlight, livePos, s.dragging with
      | some id, some pos, false =>
          let trans0 := if s.prevTrackedId = some id then s.trackTransition else 0
          let trans := trans0 + dt
          let p := normalizeV (latLngToVector3 pos.1 pos.2 engineR)
          let qT := quatMul qTilt (setFromUnitVectors p ⟨0, 0, 1⟩)
          let speed : ℝ := if trans < 0.6 then 8 else 3
          let tt := 1 - Real.exp (-(speed * dt))
          { s0 with prevTrackedId := some id
                    trackTransition := trans
                    orientation := slerp s.orientation qT tt
                    dragVelX := 0
                    dragVelY := 0
                    targetCamZ := s.userZoom }
      | some _, none, _ =>
          { s0 with targetCamZ := s.userZoom }
      | _, _, _ =>
          if s.dragging then
            { s0 with orientation :=
                quatFromEulerXYZ (0.12 + s.userRotX) s.userRotY (-0.18) }
          else
            let rotY := s.userRotY +
              (if s.paused then 0 else Real.pi * 2 / 100 * dt) + s.dragVelX
            let rotX := max (-1.5) (min 1.5 (s.userRotX + s.dragVelY))
            let vX0 := s.dragVelX * 0.95
            let vY0 := s.dragVelY * 0.95
            let vX := if |vX0| < 0.0001 then 0 else vX0
            let vY := if |vY0| < 0.0001 then 0 else vY0
            { s0 with userRotY := rotY
                      userRotX := rotX
                      dragVelX := vX
                      dragVelY := vY
                      targetCamZ := s.userZoom
                      orientation := quatFromEulerXYZ (0.12 + rotX) rotY (-0.18) }
    { s1 with camZ := s1.camZ + (s1.targetCamZ - s1.camZ) * 3 * dt }

/-- The zoom-relevant input events of the claim about zoom clamping. -/
inductive ZoomOp where
  | wheel : ℝ → Nat → ZoomOp
  | touchStartTwo : ℝ → ℝ → ℝ → ℝ → ZoomOp
  | pinchMove : ℝ → ℝ → ℝ → ℝ → ZoomOp
  | touchEnd : ZoomOp
  | stepZoom : ℝ → ZoomOp
  | zoomIn : ZoomOp

/-- Interpret one zoom event on the engine state. -/
noncomputable def applyZoomOp (s : EngineState) : ZoomOp → EngineState
  | ZoomOp.wheel d m => wheelE d m s
  | ZoomOp.touchStartTwo a b c d => touchStartTwoE a b c d s
  | ZoomOp.pinchMove a b c d => pinchMoveE a b c d s
  | ZoomOp.touchEnd => touchEndE s
  | ZoomOp.stepZoom d => stepZoomE d s
  | ZoomOp.zoomIn => zoomInE s

/-- Interpret a finite sequence of zoom events. -/
noncomputable def applyZoomOps (s : EngineState) (ops : List ZoomOp) : EngineState :=
  ops.foldl applyZoomOp s

/-! ## Helper lemmas and sample data -/

/-- A concrete live entity used by executable witnesses. -/
def sampleFlight : LiveFlight ℚ :=
  { id := "AF123", lat := 10, lng := 20, alt := 10000, vel := 450, hdg := 90,
    vr := 0, cs := "AFR123", origin := "France", squawk := "1000", cat := 5,
    lastContact := 0, baroAlt := 9800, spi := false }

/-- Splitting any list by the three classification outcomes partitions it:
the three filtered lengths sum to the original length. -/
theorem filter_class_partition {α : Type} [LinearOrderedField α]
    (l : List (LiveFlight α)) :
    (l.filter (fun f => classifyFlight f.cat = PlaneClass.Light)).length +
    (l.filter (fun f => classifyFlight f.cat = PlaneClass.Medium)).length +
    (l.filter (fun f => classifyFlight f.cat = PlaneClass.Heavy)).length = l.length := by
  induction l with
  | nil => simp
  | cons f rest ih =>
      rcases h : classifyFlight f.cat with _ | _ | _ <;>
        simp [List.filter_cons, h] <;> omega

/-- The three per-class instance counts sum to `min live.length 6000`. -/
theorem bucket_length_sum {α : Type} [LinearOrderedField α]
    (live : List (LiveFlight α)) :
    (bucket live PlaneClass.Light).length + (bucket live PlaneClass.Medium).length +
      (bucket live PlaneClass.Heavy).length = min live.length 6000 := by
  have h := filter_class_partition (rendered live)
  have hlen : (rendered live).length = min live.length 6000 := by
    simp [rendered, MAX_INSTANCES, List.length_take, Nat.min_comm]
  simpa [bucket, hlen] using h

/-! ## C10 -/

/-- C10: `classifyFlight` is total and partitions category codes into
exactly one of three classes: codes 4 through 7 map to Heavy, code 3 maps
to Medium, and every other code (including 0, 1, 2, 8 to 14, negatives and
any unknown value) maps to Light; consequently each of the first
`min n 6000` live entities lands in exactly one class bucket per frame and
the three bucket sizes sum to `min n 6000`. -/
theorem claim_C10 :
    (∀ cat : ℚ, 4 ≤ cat → cat ≤ 7 → classifyFlight cat = PlaneClass.Heavy) ∧
    classifyFlight (3 : ℚ) = PlaneClass.Medium ∧
    (∀ cat : ℚ, ¬(4 ≤ cat ∧ cat ≤ 7) → cat ≠ 3 → classifyFlight cat = PlaneClass.Light) ∧
    (∀ cat : ℚ, cat ∈ ([0, 1, 2, 8, 9, 10, 11, 12, 13, 14, -1] : List ℚ) →
      classifyFlight cat = PlaneClass.Light) ∧
    (∀ cat : ℚ, ∃! c : PlaneClass, classifyFlight cat = c) ∧
    (∀ live : List (LiveFlight ℚ), ∀ f ∈ rendered live,
      ∃! c : PlaneClass, f ∈ bucket live c) ∧
    (∀ live : List (LiveFlight ℚ),
      (bucket live PlaneClass.Light).length + (bucket live PlaneClass.Medium).length +
        (bucket live PlaneClass.Heavy).length = min live.length 6000) := by
  refine ⟨?_, ?_, ?_, ?_, ?_, ?_, ?_⟩
  · intro cat h4 h7
    simp [classifyFlight, h4, h7]
  · norm_num [classifyFlight]
  · intro cat hno h3
    simp [classifyFlight, hno, h3]
  · intro cat hmem
    fin_cases hmem <;> norm_num [classifyFlight]
  · intro cat
    exact ⟨classifyFlight cat, rfl, fun c h => h.symm⟩
  · intro live f hf
    refine ⟨classifyFlight f.cat, ?_, ?_⟩
    · simp [bucket, List.mem_filter, hf]
    · intro c hc
      simp only [bucket, List.mem_filter, decide_eq_true_eq] at hc
      exact hc.2.symm
  · intro live
    exact bucket_length_sum live

/-- Witness for C10 at concrete inputs. -/
theorem claim_C10_witness :
    classifyFlight (5 : ℚ) = PlaneClass.Heavy ∧
    classifyFlight (3 : ℚ) = PlaneClass.Medium ∧
    classifyFlight (12 : ℚ) = PlaneClass.Light :=
  ⟨claim_C10.1 5 (by norm_num) (by norm_num), claim_C10.2.1,
    claim_C10.2.2.1 12 (by norm_num) (by norm_num)⟩

/-! ## C8 -/

/-- C8: with `n` live entities, exactly `min n 6000` of them, namely the
first `min n 6000` in snapshot order, occupy instance-buffer slots in a
frame's rebuild: the per-class counts sum to `min n 6000`, every entity at
an index below 6000 is placed in the bucket of its class, every bucketed
entity comes from an index below 6000, and with 6001 live entities exactly
6000 slots are filled (the 6001st entity is silently excluded, no error is
possible since the model is total). -/
theorem claim_C8 (live : List (LiveFlight ℚ)) :
    ((bucket live PlaneClass.Light).length + (bucket live PlaneClass.Medium).length +
      (bucket live PlaneClass.Heavy).length = min live.length 6000) ∧
    (∀ i (hi : i < live.length), i < 6000 →
      live.get ⟨i, hi⟩ ∈ bucket live (classifyFlight (live.get ⟨i, hi⟩).cat)) ∧
    (∀ c : PlaneClass, ∀ f ∈ bucket live c, ∃ i, i < 6000 ∧ live.get? i = some f) ∧
    (live.length = 6001 →
      (bucket live PlaneClass.Light).length + (bucket live PlaneClass.Medium).length +
        (bucket live PlaneClass.Heavy).length = 6000) := by
  refine ⟨bucket_length_sum live, ?_, ?_, ?_⟩
  · intro i hi hi6
    have hmem : live.get ⟨i, hi⟩ ∈ rendered live := by
      have : (live.take 6000).get? i = some (live.get ⟨i, hi⟩) := by
        rw [List.get?_take hi6]
        exact (List.get?_eq_get hi)
      exact List.get?_mem (by simpa [rendered, MAX_INSTANCES] using this)
    simp only [List.get_eq_getElem] at hmem
    simp [bucket, List.mem_filter, hmem]
  · intro c f hf
    have hmem : f ∈ rendered live := (List.mem_filter.mp hf).1
    rw [rendered, MAX_INSTANCES] at hmem
    rcases List.mem_iff_get?.mp hmem with ⟨i, hgi⟩
    by_cases hi : i < 6000
    · refine ⟨i, hi, ?_⟩
      rwa [List.get?_take hi] at hgi
    · rw [List.get?_eq_none.mpr] at hgi
      · exact absurd hgi (by simp)
      · simp [List.length_take]
        omega
  · intro h6001
    rw [bucket_length_sum live, h6001]
    norm_num

/-- Witness for C8: a concrete one-entity live list; the entity occupies a
slot in its class bucket and the slot counts sum to `min 1 6000 = 1`. -/
theorem claim_C8_witness :
    (bucket [sampleFlight] PlaneClass.Light).length +
      (bucket [sampleFlight] PlaneClass.Medium).length +
      (bucket [sampleFlight] PlaneClass.Heavy).length = 1 ∧
    [sampleFlight].get ⟨0, by norm_num⟩ ∈
      bucket [sampleFlight] (classifyFlight ([sampleFlight].get ⟨0, by norm_num⟩).cat) := by
  constructor
  · have h := (claim_C8 [sampleFlight]).1
    simpa using h
  · exact (claim_C8 [sampleFlight]).2.1 0 (by norm_num) (by norm_num)

/-! ## C6 -/

/-- Unfolding the fold that builds the `oldMap`: the result is either the
starting accumulator or an element of the scanned list carrying the
looked-up id. -/
theorem lookupLast_fold {α : Type} [LinearOrderedField α] (id : String) :
    ∀ (l : List (LiveFlight α)) (acc : Option (LiveFlight α)) (g : LiveFlight α),
      l.foldl (fun acc f => if f.id = id then some f else acc) acc = some g →
      acc = some g ∨ (g ∈ l ∧ g.id = id) := by
  intro l
  induction l with
  | nil => intro acc g hacc; exact Or.inl hacc
  | cons f rest ih =>
      intro acc g hacc
      rw [List.foldl_cons] at hacc
      rcases ih _ g hacc with hc | ⟨hm, hgid⟩
      · by_cases hid : f.id = id
        · rw [if_pos hid] at hc
          have hfg : f = g := Option.some.injEq _ _ ▸ hc
          exact Or.inr ⟨hfg ▸ List.mem_cons_self f rest, hfg ▸ hid⟩
        · rw [if_neg hid] at hc
          exact Or.inl hc
      · exact Or.inr ⟨List.mem_cons_of_mem f hm, hgid⟩

/-- The `oldMap` lookup only produces elements of the live list. -/
theorem lookupLast_mem {α : Type} [LinearOrderedField α]
    {live : List (LiveFlight α)} {id : String} {g : LiveFlight α}
    (h : lookupLast live id = some g) : g ∈ live := by
  rcases lookupLast_fold id live none g h with hc | ⟨hm, _⟩
  · exact absurd hc (by simp)
  · exact hm

/-- The `oldMap` lookup only produces flights carrying the looked-up id. -/
theorem lookupLast_id {α : Type} [LinearOrderedField α]
    {live : List (LiveFlight α)} {id : String} {g : LiveFlight α}
    (h : lookupLast live id = some g) : g.id = id := by
  rcases lookupLast_fold id live none g h with hc | ⟨_, hgid⟩
  · exact absurd hc (by simp)
  · exact hgid

/-- C6: when a snapshot record's id already exists, `setFlights` replaces
the kinematic and display fields outright while moving latitude and
longitude exactly 30 percent of the way toward the snapshot values, so the
remaining distance to the target shrinks by the factor 0.7 per call
(monotonically, with no jump), and a second application of the same record
shrinks it by 0.7 again. -/
theorem claim_C6 {α : Type} [LinearOrderedField α]
    (live : List (LiveFlight α)) (f : FlightData α) (old : LiveFlight α)
    (h : lookupLast live f.id = some old) :
    (processRecord live f).lat = old.lat + (f.lat - old.lat) * 0.3 ∧
    (processRecord live f).lng = old.lng + (f.lng - old.lng) * 0.3 ∧
    (processRecord live f).lat - f.lat = 0.7 * (old.lat - f.lat) ∧
    (processRecord live f).lng - f.lng = 0.7 * (old.lng - f.lng) ∧
    |(processRecord live f).lat - f.lat| ≤ |old.lat - f.lat| ∧
    |(processRecord live f).lng - f.lng| ≤ |old.lng - f.lng| ∧
    (processRecord live f).vel = f.vel ∧ (processRecord live f).hdg = f.hdg ∧
    (processRecord live f).vr = f.vr ∧ (processRecord live f).alt = f.alt ∧
    (processRecord live f).cs = f.cs ∧ (processRecord live f).origin = f.origin ∧
    (processRecord live f).squawk = f.squawk ∧ (processRecord live f).cat = f.cat ∧
    (processRecord live f).lastContact = f.lastContact ∧
    (processRecord live f).baroAlt = f.baroAlt ∧
    (processRecord live f).spi = f.spi ∧ (processRecord live f).id = f.id ∧
    (processRecord (setFlights live [f]) f).lat - f.lat =
      0.7 * (0.7 * (old.lat - f.lat)) := by
  have hid : old.id = f.id := lookupLast_id h
  have hproc : processRecord live f =
      { old with
        hdg := f.hdg, vel := f.vel, vr := f.vr, alt := f.alt, cs := f.cs,
        origin := f.origin, squawk := f.squawk, cat := f.cat,
        lastContact := f.lastContact, baroAlt := f.baroAlt, spi := f.spi,
        lat := old.lat + (f.lat - old.lat) * 0.3,
        lng := old.lng + (f.lng - old.lng) * 0.3 } := by
    rw [processRecord, h]
  have habs : ∀ d : α, |0.7 * d| ≤ |d| := by
    intro d
    rw [abs_mul]
    calc |(0.7 : α)| * |d| = 0.7 * |d| := by rw [abs_of_nonneg]; norm_num
    _ ≤ 1 * |d| := by
        apply mul_le_mul_of_nonneg_right (by norm_num) (abs_nonneg d)
    _ = |d| := one_mul _
  have hlat : (processRecord live f).lat - f.lat = 0.7 * (old.lat - f.lat) := by
    rw [hproc]; ring
  have hlng : (processRecord live f).lng - f.lng = 0.7 * (old.lng - f.lng) := by
    rw [hproc]; ring
  have hsecond : (processRecord (setFlights live [f]) f).lat - f.lat =
      0.7 * (0.7 * (old.lat - f.lat)) := by
    have h1 : setFlights live [f] = [processRecord live f] := by
      simp [setFlights]
    have hid1 : (processRecord live f).id = f.id := by rw [hproc]; exact hid
    have h2 : lookupLast [processRecord live f] f.id = some (processRecord live f) := by
      simp [lookupLast, hid1]
    have h3 : (processRecord (setFlights live [f]) f).lat - f.lat =
        0.7 * ((processRecord live f).lat - f.lat) := by
      rw [h1, processRecord, h2]
      simp only []
      ring
    rw [h3, hlat]
  refine ⟨by rw [hproc], by rw [hproc], hlat, hlng, ?_, ?_, ?_⟩
  · rw [hlat]; exact habs _
  · rw [hlng]; exact habs _
  · rw [hproc]
    exact ⟨rfl, rfl, rfl, rfl, rfl, rfl, rfl, rfl, rfl, rfl, rfl, hid, hsecond⟩

/-- A concrete snapshot record for the same id as `sampleFlight`. -/
def sampleData : FlightData ℚ :=
  { id := "AF123", lat := 11, lng := 22, alt := 10050, vel := 452, hdg := 92,
    vr := 2, cs := "AFR123", origin := "France", squawk := "1000", cat := 5,
    lastContact := 5, baroAlt := 9850, spi := false }

/-- Witness for C6: merging `sampleData` into a live list holding
`sampleFlight` moves latitude by exactly 30 percent of the gap and keeps
the snapshot's kinematic fields. -/
theorem claim_C6_witness :
    (processRecord [sampleFlight] sampleData).lat =
      sampleFlight.lat + (sampleData.lat - sampleFlight.lat) * 0.3 ∧
    (processRecord [sampleFlight] sampleData).vel = sampleData.vel := by
  have h : lookupLast [sampleFlight] sampleData.id = some sampleFlight := by
    simp [lookupLast, sampleFlight, sampleData]
  exact ⟨(claim_C6 [sampleFlight] sampleData sampleFlight h).1,
    (claim_C6 [sampleFlight] sampleData sampleFlight h).2.2.2.2.2.2.1⟩

/-! ## C5 -/

/-- Invariant of the `findNearest` loop: either the accumulator survives
and every scanned entity is at distance at least the running best, or the
result is the id of a scanned entity strictly closer than the running best
and at minimal distance among the scanned entities. -/
theorem findNearestAux_spec {α : Type} [LinearOrderedField α]
    (lat lng : α) (l : List (LiveFlight α)) (best : Option String) (bd : α) :
    (findNearestAux lat lng l best bd = best ∧ ∀ f ∈ l, bd ≤ dist2 lat lng f) ∨
    (∃ f ∈ l, findNearestAux lat lng l best bd = some f.id ∧
      dist2 lat lng f < bd ∧ ∀ g ∈ l, dist2 lat lng f ≤ dist2 lat lng g) := by
  induction l generalizing best bd with
  | nil => exact Or.inl ⟨rfl, by simp⟩
  | cons f rest ih =>
      by_cases hd : dist2 lat lng f < bd
      · rw [findNearestAux]
        simp only [if_pos hd]
        rcases ih (some f.id) (dist2 lat lng f) with ⟨heq, hall⟩ | ⟨g, hg, heq, hlt, hall⟩
        · refine Or.inr ⟨f, List.mem_cons_self f rest, heq, hd, ?_⟩
          intro g hg
          rcases List.mem_cons.mp hg with rfl | hg
          · exact le_refl _
          · exact hall g hg
        · refine Or.inr ⟨g, List.mem_cons_of_mem f hg, heq, lt_trans hlt hd, ?_⟩
          intro k hk
          rcases List.mem_cons.mp hk with rfl | hk
          · exact le_of_lt hlt
          · exact hall k hk
      · rw [findNearestAux]
        simp only [if_neg hd]
        rcases ih best bd with ⟨heq, hall⟩ | ⟨g, hg, heq, hlt, hall⟩
        · refine Or.inl ⟨heq, ?_⟩
          intro k hk
          rcases List.mem_cons.mp hk with rfl | hk
          · exact not_lt.mp hd
          · exact hall k hk
        · refine Or.inr ⟨g, List.mem_cons_of_mem f hg, heq, hlt, ?_⟩
          intro k hk
          rcases List.mem_cons.mp hk with rfl | hk
          · exact le_of_lt (lt_of_lt_of_le hlt (not_lt.mp hd))
          · exact hall k hk

/-- C5: `findNearest` returns the id of a live entity whose
wraparound-corrected squared degree distance is minimal over all live
entities and strictly below `maxDeg * maxDeg`, and returns null exactly
when no live entity is strictly inside that threshold. -/
theorem claim_C5 {α : Type} [LinearOrderedField α]
    (live : List (LiveFlight α)) (lat lng maxDeg : α) :
    (findNearest live lat lng maxDeg = none ↔
      ∀ f ∈ live, maxDeg * maxDeg ≤ dist2 lat lng f) ∧
    (∀ id, findNearest live lat lng maxDeg = some id →
      ∃ f ∈ live, f.id = id ∧ dist2 lat lng f < maxDeg * maxDeg ∧
        ∀ g ∈ live, dist2 lat lng f ≤ dist2 lat lng g) := by
  constructor
  · constructor
    · intro hn
      rcases findNearestAux_spec lat lng live none (maxDeg * maxDeg) with
        ⟨_, hall⟩ | ⟨f, _, heq, _, _⟩
      · exact hall
      · rw [findNearest] at hn
        rw [hn] at heq
        exact absurd heq (by simp)
    · intro hall
      rcases findNearestAux_spec lat lng live none (maxDeg * maxDeg) with
        ⟨heq, _⟩ | ⟨f, hf, _, hlt, _⟩
      · exact heq
      · exact absurd hlt (not_lt.mpr (hall f hf))
  · intro id hs
    rcases findNearestAux_spec lat lng live none (maxDeg * maxDeg) with
      ⟨heq, _⟩ | ⟨f, hf, heq, hlt, hall⟩
    · rw [findNearest] at hs
      rw [hs] at heq
      exact absurd heq.symm (by simp)
    · rw [findNearest] at hs
      rw [hs] at heq
      exact ⟨f, hf, (Option.some.injEq _ _ ▸ heq).symm, hlt, hall⟩

/-- A second concrete live entity, further from the origin than
`sampleFlight`. -/
def farFlight : LiveFlight ℚ :=
  { id := "BA456", lat := 50, lng := -170, alt := 11000, vel := 480, hdg := 270,
    vr := 0, cs := "BAW456", origin := "United Kingdom", squawk := "2000",
    cat := 4, lastContact := 0, baroAlt := 10800, spi := false }

/-- Witness for C5: querying near `sampleFlight` returns its id, which is
strictly inside the threshold and minimal among the two live entities. -/
theorem claim_C5_witness :
    ∃ f ∈ [sampleFlight, farFlight], f.id = "AF123" ∧
      dist2 (11 : ℚ) 21 f < 5 * 5 ∧
      ∀ g ∈ [sampleFlight, farFlight], dist2 (11 : ℚ) 21 f ≤ dist2 11 21 g := by
  have h : findNearest [sampleFlight, farFlight] (11 : ℚ) 21 5 = some "AF123" := by
    norm_num [findNearest, findNearestAux, dist2, sampleFlight, farFlight]
  exact (claim_C5 [sampleFlight, farFlight] 11 21 5).2 "AF123" h

/-! ## C9 -/

/-- A single zoom-relevant input event keeps the user zoom inside the
6.5 to 30 range. -/
theorem zoomOp_preserves (s : EngineState) (op : ZoomOp)
    (h1 : 6.5 ≤ s.userZoom) (h2 : s.userZoom ≤ 30) :
    6.5 ≤ (applyZoomOp s op).userZoom ∧ (applyZoomOp s op).userZoom ≤ 30 := by
  cases op with
  | wheel d m =>
      simp only [applyZoomOp, wheelE]
      exact ⟨le_max_left _ _, max_le (by norm_num) (min_le_left _ _)⟩
  | touchStartTwo a b c d =>
      simp only [applyZoomOp, touchStartTwoE]
      exact ⟨h1, h2⟩
  | pinchMove a b c d =>
      simp only [applyZoomOp, pinchMoveE]
      split_ifs with h
      · exact ⟨le_max_left _ _, max_le (by norm_num) (min_le_left _ _)⟩
      · exact ⟨h1, h2⟩
  | touchEnd =>
      simp only [applyZoomOp, touchEndE]
      exact ⟨h1, h2⟩
  | stepZoom d =>
      simp only [applyZoomOp, stepZoomE]
      exact ⟨le_max_left _ _, max_le (by norm_num) (min_le_left _ _)⟩
  | zoomIn =>
      simp only [applyZoomOp, zoomInE]
      split_ifs with h
      · exact ⟨le_min h1 (by norm_num), le_trans (min_le_left _ _) h2⟩
      · exact ⟨le_min h1 (by norm_num), le_trans (min_le_left _ _) h2⟩

/-- C9: the user zoom starts inside the 6.5 to 30 range (16 on desktop, 22
on mobile) and remains inside it after any finite sequence of wheel
events, pinch gestures and `stepZoom` or `zoomIn` calls. -/
theorem claim_C9 :
    (∀ isMobile : Bool, 6.5 ≤ (initEngineState isMobile).userZoom ∧
      (initEngineState isMobile).userZoom ≤ 30) ∧
    (∀ (s : EngineState) (ops : List ZoomOp),
      6.5 ≤ s.userZoom → s.userZoom ≤ 30 →
      6.5 ≤ (applyZoomOps s ops).userZoom ∧ (applyZoomOps s ops).userZoom ≤ 30) := by
  constructor
  · intro isMobile
    cases isMobile <;> norm_num [initEngineState]
  · intro s ops
    induction ops generalizing s with
    | nil => intro h1 h2; exact ⟨h1, h2⟩
    | cons op rest ih =>
        intro h1 h2
        have h := zoomOp_preserves s op h1 h2
        simpa [applyZoomOps] using ih (applyZoomOp s op) h.1 h.2

/-- Witness for C9: a concrete event sequence starting from the desktop
initial state stays in range. -/
theorem claim_C9_witness :
    6.5 ≤ (applyZoomOps (initEngineState false)
        [ZoomOp.wheel 300 0, ZoomOp.zoomIn, ZoomOp.stepZoom (-20)]).userZoom ∧
    (applyZoomOps (initEngineState false)
        [ZoomOp.wheel 300 0, ZoomOp.zoomIn, ZoomOp.stepZoom (-20)]).userZoom ≤ 30 :=
  claim_C9.2 (initEngineState false) _ (by norm_num [initEngineState])
    (by norm_num [initEngineState])

/-! ## C4 -/

/-- Counterexample to C4: `togglePause` on a freshly disposed engine is
not a no-op; it still flips the pause flag, because no public mutator
checks the disposed flag. -/
theorem claim_C4_cex :
    togglePauseE (dispose (initEngineState false)) ≠ dispose (initEngineState false) := by
  intro h
  have hp := congrArg EngineState.paused h
  simp [togglePauseE, dispose, initEngineState] at hp

/-- C4 amended: only the frame callback is guarded by the disposed flag
(and is a no-op on a disposed engine); a second `dispose` is idempotent on
the engine state; `setFlights` after dispose is a no-op because the flight
layer has been nulled; but `togglePause`, `stepZoom`, `zoomIn` and
`setSelectedFlight` are not guarded and still perform their state writes
after disposal (harmlessly, since no further frame runs). -/
theorem claim_C4_amended :
    (∀ (dt : ℝ) (s : EngineState), s.disposed = true → frameStep dt s = s) ∧
    (∀ s : EngineState, dispose (dispose s) = dispose s) ∧
    (∀ (s : EngineState) (fs : List (FlightData ℝ)),
      setFlightsE fs (dispose s) = dispose s) ∧
    (∀ s : EngineState, (togglePauseE (dispose s)).paused = !s.paused) ∧
    (∀ (s : EngineState) (δ : ℝ),
      (stepZoomE δ (dispose s)).userZoom = max 6.5 (min 30 (s.userZoom + δ))) ∧
    (∀ s : EngineState, (zoomInE (dispose s)).userZoom = min s.userZoom 9) ∧
    (∀ (s : EngineState) (f : Option String),
      (setSelectedFlightE f (dispose s)).selectedFlight = f) := by
  refine ⟨?_, ?_, ?_, ?_, ?_, ?_, ?_⟩
  · intro dt s h
    simp [frameStep, h]
  · intro s
    rfl
  · intro s fs
    simp [setFlightsE, dispose]
  · intro s
    simp [togglePauseE, dispose]
  · intro s δ
    simp [stepZoomE, dispose]
  · intro s
    by_cases h : s.trackingZoom <;> simp [zoomInE, dispose, h]
  · intro s f
    cases f <;> simp [setSelectedFlightE, dispose] <;> split_ifs <;> rfl

/-- Witness for C4 amended: on the disposed desktop-initial engine, a
frame is a no-op while `togglePause` still flips the pause flag. -/
theorem claim_C4_amended_witness :
    frameStep 0.016 (dispose (initEngineState false)) = dispose (initEngineState false) ∧
    (togglePauseE (dispose (initEngineState false))).paused = true := by
  constructor
  · exact claim_C4_amended.1 0.016 (dispose (initEngineState false)) rfl
  · have h := claim_C4_amended.2.2.2.1 (initEngineState false)
    simpa [initEngineState] using h

/-! ## C3 -/

/-- The identity orientation (globe group not rotated). -/
noncomputable def idM3 : M3 := ⟨1, 0, 0, 0, 1, 0, 0, 0, 1⟩

/-- A concrete camera ray that misses the globe hit sphere: it starts at
the default camera distance and points sideways. -/
noncomputable def missRay : Ray := ⟨⟨0, 0, 16⟩, ⟨1, 0, 0⟩⟩

/-- Counterexample to C3: for a pointer ray that misses the enlarged globe
sphere, the click handler returns without invoking the flight-picked
callback at all; it does not invoke it with null as the claim states. -/
theorem claim_C3_cex :
    intersectSphere ⟨0, 0, 0⟩ (engineR * 1.02) missRay = none ∧
    boundClick idM3 [] missRay = ClickResult.noCallback ∧
    boundClick idM3 [] missRay ≠ ClickResult.callback none := by
  have hmiss : intersectSphere ⟨0, 0, 0⟩ (engineR * 1.02) missRay = none := by
    rw [intersectSphere]
    simp only [missRay, dotV, engineR]
    norm_num
  refine ⟨hmiss, ?_, ?_⟩
  · rw [boundClick, hmiss]
  · rw [boundClick, hmiss]
    simp

/-- C3 amended: a picking ray that misses the enlarged globe sphere makes
the handler return early with no callback invocation (a dropped event, not
an error); the callback, with `findNearest`'s result (null when no flight
is within the 5 degree threshold, i.e. the actual deselect path), is
invoked only when the sphere is hit. -/
theorem claim_C3_amended (Minv : M3) (live : List (LiveFlight ℝ)) (ray : Ray) :
    (intersectSphere ⟨0, 0, 0⟩ (engineR * 1.02) ray = none →
      boundClick Minv live ray = ClickResult.noCallback) ∧
    (∀ p, intersectSphere ⟨0, 0, 0⟩ (engineR * 1.02) ray = some p →
      boundClick Minv live ray = ClickResult.callback
        (findNearest live (pointToLatLng (mulVecM Minv p)).1
          (pointToLatLng (mulVecM Minv p)).2 5)) := by
  constructor
  · intro h
    rw [boundClick, h]
  · intro p h
    rw [boundClick, h]

/-- Witness for C3 amended at the concrete missing ray. -/
theorem claim_C3_amended_witness :
    boundClick idM3 [] missRay = ClickResult.noCallback := by
  have hmiss : intersectSphere ⟨0, 0, 0⟩ (engineR * 1.02) missRay = none := by
    rw [intersectSphere]
    simp only [missRay, dotV, engineR]
    norm_num
  exact (claim_C3_amended idM3 [] missRay).1 hmiss

/-! ## C7 -/

/-- The single subtract-then-add 360 correction lands in the normalized
range whenever the incoming longitude is within one full turn of it. -/
theorem wrapLng_mem (x : ℝ) (h1 : -540 ≤ x) (h2 : x ≤ 540) :
    wrapLng x ∈ Set.Icc (-180 : ℝ) 180 := by
  simp only [wrapLng, Set.mem_Icc]
  split_ifs with ha hb hb <;> constructor <;> linarith

/-- An entity flying east at the equator, used with an extreme `dt`. -/
noncomputable def bigDtFlight : LiveFlight ℝ :=
  { id := "X1", lat := 0, lng := 0, alt := 0, vel := 100, hdg := 90,
    vr := 0, cs := "", origin := "", squawk := "", cat := 0,
    lastContact := 0, baroAlt := 0, spi := false }

/-- Counterexample to C7: after `update(10^9)` on an equatorial eastbound
entity whose longitude starts at 0, the longitude leaves the normalized
range, because a single plus-or-minus 360 correction cannot re-wrap an
arbitrarily large increment. -/
theorem claim_C7_cex :
    bigDtFlight.lng ∈ Set.Icc (-180 : ℝ) 180 ∧
    180 < (updateFlight ((10 : ℝ) ^ 9) bigDtFlight).lng := by
  constructor
  · simp only [bigDtFlight, Set.mem_Icc]
    norm_num
  · have hcos : Real.cos (bigDtFlight.lat * DEG_TO_RAD) = 1 := by
      simp [bigDtFlight]
    have hsin : Real.sin (bigDtFlight.hdg * DEG_TO_RAD) = 1 := by
      have h : bigDtFlight.hdg * DEG_TO_RAD = Real.pi / 2 := by
        simp only [bigDtFlight, DEG_TO_RAD]
        ring
      rw [h, Real.sin_pi_div_two]
    have hd : dLngStep ((10 : ℝ) ^ 9) bigDtFlight =
        100 * 0.5144 * (10 : ℝ) ^ 9 / 111320 := by
      rw [dLngStep, if_pos (by rw [hcos]; norm_num), hcos, hsin]
      simp only [bigDtFlight]
      ring
    have hlng : (updateFlight ((10 : ℝ) ^ 9) bigDtFlight).lng =
        wrapLng (bigDtFlight.lng + dLngStep ((10 : ℝ) ^ 9) bigDtFlight) := rfl
    rw [hlng, hd]
    simp only [bigDtFlight, wrapLng]
    norm_num

/-- C7 amended: longitude stays inside the normalized range after
`setFlights` provided the stored and the snapshot longitudes are in range
(the blend is a convex combination), and after `update(dt)` provided the
computed longitude increment is at most one full turn (which the single
plus-or-minus 360 correction can absorb); for unbounded `dt` times speed
the invariant fails. -/
theorem claim_C7_amended :
    (∀ (live : List (LiveFlight ℝ)) (f : FlightData ℝ),
      (∀ g ∈ live, g.lng ∈ Set.Icc (-180 : ℝ) 180) →
      f.lng ∈ Set.Icc (-180 : ℝ) 180 →
      (processRecord live f).lng ∈ Set.Icc (-180 : ℝ) 180) ∧
    (∀ (f : LiveFlight ℝ) (dt : ℝ),
      f.lng ∈ Set.Icc (-180 : ℝ) 180 → |dLngStep dt f| ≤ 360 →
      (updateFlight dt f).lng ∈ Set.Icc (-180 : ℝ) 180) := by
  constructor
  · intro live f hlive hf
    rw [processRecord]
    cases h : lookupLast live f.id with
    | none => simpa using hf
    | some old =>
        have hold := hlive old (lookupLast_mem h)
        simp only [Set.mem_Icc] at hold hf ⊢
        constructor <;> nlinarith [hold.1, hold.2, hf.1, hf.2]
  · intro f dt hf habs
    have hb := abs_le.mp habs
    simp only [Set.mem_Icc] at hf
    have hlng : (updateFlight dt f).lng = wrapLng (f.lng + dLngStep dt f) := rfl
    rw [hlng]
    exact wrapLng_mem _ (by linarith [hb.1, hf.1]) (by linarith [hb.2, hf.2])

/-- A concrete real-valued snapshot record with in-range coordinates. -/
noncomputable def realData : FlightData ℝ :=
  { id := "Z1", lat := 48, lng := 2, alt := 9000, vel := 440, hdg := 180,
    vr := 0, cs := "Z1", origin := "", squawk := "", cat := 4,
    lastContact := 0, baroAlt := 8900, spi := false }

/-- Witness for C7 amended: merging a snapshot record into an empty live
list keeps its in-range longitude, and one `update(0)` step on the
equatorial entity keeps longitude in range. -/
theorem claim_C7_amended_witness :
    (processRecord ([] : List (LiveFlight ℝ)) realData).lng ∈ Set.Icc (-180 : ℝ) 180 ∧
    (updateFlight 0 bigDtFlight).lng ∈ Set.Icc (-180 : ℝ) 180 := by
  constructor
  · exact claim_C7_amended.1 [] realData (by intro g hg; cases hg)
      (by simp only [realData, Set.mem_Icc]; norm_num)
  · refine claim_C7_amended.2 bigDtFlight 0
      (by simp only [bigDtFlight, Set.mem_Icc]; norm_num) ?_
    have hcos : Real.cos (bigDtFlight.lat * DEG_TO_RAD) = 1 := by
      simp [bigDtFlight]
    have hd : dLngStep 0 bigDtFlight = 0 := by
      rw [dLngStep, if_pos (by rw [hcos]; norm_num)]
      ring
    rw [hd]
    norm_num

/-! ## C2 -/

/-- An entity at latitude 60 flying due east. -/
noncomputable def latFlight : LiveFlight ℝ :=
  { id := "Y1", lat := 60, lng := 0, alt := 0, vel := 100, hdg := 90,
    vr := 0, cs := "", origin := "", squawk := "", cat := 0,
    lastContact := 0, baroAlt := 0, spi := false }

/-- Counterexample to C2: at latitude 60 the longitude step is divided by
`cos(60 degrees) = 1/2`, so after `update(1)` the longitude moves twice as
far as the claimed `groundSpeed * dt / 111320` bound. -/
theorem claim_C2_cex :
    ¬ (|(updateFlight 1 latFlight).lng - latFlight.lng| ≤
        latFlight.vel * 0.5144 * 1 / 111320) := by
  have h60 : latFlight.lat * DEG_TO_RAD = Real.pi / 3 := by
    simp only [latFlight, DEG_TO_RAD]
    ring
  have hcos : Real.cos (latFlight.lat * DEG_TO_RAD) = 1 / 2 := by
    rw [h60, Real.cos_pi_div_three]
  have hsin : Real.sin (latFlight.hdg * DEG_TO_RAD) = 1 := by
    have h : latFlight.hdg * DEG_TO_RAD = Real.pi / 2 := by
      simp only [latFlight, DEG_TO_RAD]
      ring
    rw [h, Real.sin_pi_div_two]
  have hd : dLngStep 1 latFlight = 100 * 0.5144 / 55660 := by
    rw [dLngStep, if_pos (by rw [hcos]; norm_num), hcos, hsin]
    simp only [latFlight]
    ring
  have hlng : (updateFlight 1 latFlight).lng =
      wrapLng (latFlight.lng + dLngStep 1 latFlight) := rfl
  rw [hlng, hd]
  simp only [latFlight, wrapLng]
  norm_num
  rw [abs_of_nonneg (by norm_num : (0 : ℝ) ≤ 643 / 695750)]
  norm_num

/-- C2 amended: for `dt ≥ 0` and nonnegative ground speed, the latitude
moves by at most `groundSpeed * dt / 111320` degrees as claimed, but the
longitude increment is only bounded by the claimed quantity divided by
`cos(lat)` (it is zero at the pole guard), and the resulting longitude is
in the normalized range provided it was before and the increment is at
most one full turn. -/
theorem claim_C2_amended (f : LiveFlight ℝ) (dt : ℝ)
    (hdt : 0 ≤ dt) (hvel : 0 ≤ f.vel) :
    |(updateFlight dt f).lat - f.lat| ≤ f.vel * 0.5144 * dt / 111320 ∧
    (Real.cos (f.lat * DEG_TO_RAD) > 0.001 →
      |dLngStep dt f| ≤
        f.vel * 0.5144 * dt / (111320 * Real.cos (f.lat * DEG_TO_RAD))) ∧
    (¬ Real.cos (f.lat * DEG_TO_RAD) > 0.001 → dLngStep dt f = 0) ∧
    (f.lng ∈ Set.Icc (-180 : ℝ) 180 → |dLngStep dt f| ≤ 360 →
      (updateFlight dt f).lng ∈ Set.Icc (-180 : ℝ) 180) := by
  refine ⟨?_, ?_, ?_, ?_⟩
  · have hlat : (updateFlight dt f).lat - f.lat = dLatStep dt f := by
      show f.lat + dLatStep dt f - f.lat = dLatStep dt f
      ring
    rw [hlat]
    have hsplit : dLatStep dt f =
        f.vel * 0.5144 * dt / 111320 * Real.cos (f.hdg * DEG_TO_RAD) := by
      rw [dLatStep]; ring
    rw [hsplit, abs_mul, abs_of_nonneg (by positivity)]
    calc f.vel * 0.5144 * dt / 111320 * |Real.cos (f.hdg * DEG_TO_RAD)| ≤
        f.vel * 0.5144 * dt / 111320 * 1 :=
          mul_le_mul_of_nonneg_left (Real.abs_cos_le_one _) (by positivity)
    _ = f.vel * 0.5144 * dt / 111320 := mul_one _
  · intro hc
    have hcpos : 0 < Real.cos (f.lat * DEG_TO_RAD) := lt_trans (by norm_num) hc
    have hsplit : dLngStep dt f =
        f.vel * 0.5144 * dt / (111320 * Real.cos (f.lat * DEG_TO_RAD)) *
          Real.sin (f.hdg * DEG_TO_RAD) := by
      rw [dLngStep, if_pos hc]; ring
    rw [hsplit, abs_mul, abs_of_nonneg (by positivity)]
    calc f.vel * 0.5144 * dt / (111320 * Real.cos (f.lat * DEG_TO_RAD)) *
          |Real.sin (f.hdg * DEG_TO_RAD)| ≤
        f.vel * 0.5144 * dt / (111320 * Real.cos (f.lat * DEG_TO_RAD)) * 1 :=
          mul_le_mul_of_nonneg_left (Real.abs_sin_le_one _) (by positivity)
    _ = f.vel * 0.5144 * dt / (111320 * Real.cos (f.lat * DEG_TO_RAD)) := mul_one _
  · intro hc
    rw [dLngStep, if_neg hc]
  · intro hf habs
    have hb := abs_le.mp habs
    simp only [Set.mem_Icc] at hf
    have hlng : (updateFlight dt f).lng = wrapLng (f.lng + dLngStep dt f) := rfl
    rw [hlng]
    exact wrapLng_mem _ (by linarith [hb.1, hf.1]) (by linarith [hb.2, hf.2])

/-- Witness for C2 amended at the equatorial entity with `dt = 1`. -/
theorem claim_C2_amended_witness :
    |(updateFlight 1 bigDtFlight).lat - bigDtFlight.lat| ≤
      bigDtFlight.vel * 0.5144 * 1 / 111320 :=
  (claim_C2_amended bigDtFlight 1 (by norm_num)
    (by simp only [bigDtFlight]; norm_num)).1

/-! ## C1

The deselect capture is evaluated at the steady-state tracking orientation
for a flight whose globe-local unit position is `(1, 0, 0)` (the slerp in
`_frame` converges to exactly `_qTilt * _qCenter` for a stationary
flight). -/

theorem sin009_pos : 0 < Real.sin 0.09 :=
  Real.sin_pos_of_pos_of_lt_pi (by norm_num) (lt_trans (by norm_num) Real.pi_gt_three)

theorem cos009_pos : 0 < Real.cos 0.09 := by
  have h3 := Real.pi_gt_three
  exact Real.cos_pos_of_mem_Ioo ⟨by linarith, by linarith⟩

theorem sin009_lt : Real.sin 0.09 < 0.09 := Real.sin_lt (by norm_num)

theorem sin009_gt : 0.0897 < Real.sin 0.09 := by
  have h := Real.sin_gt_sub_cube (x := 0.09) (by norm_num) (by norm_num)
  nlinarith [h]

/-- `setFromUnitVectors` at the concrete flight position: the minimal
rotation from `(1,0,0)` to `(0,0,1)`. -/
theorem sfuv_x_eval :
    setFromUnitVectors ⟨1, 0, 0⟩ ⟨0, 0, 1⟩ =
      ⟨0, -1 / Real.sqrt 2, 0, 1 / Real.sqrt 2⟩ := by
  rw [setFromUnitVectors]
  norm_num [dotV, jsEPSILON, quatNormalize, Real.sqrt_eq_zero']

/-- The tracking target quaternion at the concrete flight position. -/
theorem trackQ_x_eval :
    trackTargetQuat ⟨1, 0, 0⟩ =
      ⟨-(Real.sin 0.09 / Real.sqrt 2), -(Real.cos 0.09 / Real.sqrt 2),
       -(Real.sin 0.09 / Real.sqrt 2), Real.cos 0.09 / Real.sqrt 2⟩ := by
  rw [trackTargetQuat, sfuv_x_eval, qTilt, setFromAxisAngle, quatMul]
  have h09 : (-0.18 : ℝ) / 2 = -(0.09 : ℝ) := by norm_num
  rw [h09, Real.sin_neg, Real.cos_neg]
  simp only [Quat.mk.injEq]
  refine ⟨by ring, by ring, by ring, by ring⟩

/-- The tracking target orientation matrix at the concrete flight
position, in terms of the half-tilt angle 0.09. -/
theorem trackM_x_eval :
    trackTargetM ⟨1, 0, 0⟩ =
      ⟨0, 2 * (Real.sin 0.09 * Real.cos 0.09),
       Real.sin 0.09 ^ 2 - Real.cos 0.09 ^ 2,
       0, 1 - 2 * Real.sin 0.09 ^ 2, 2 * (Real.cos 0.09 * Real.sin 0.09),
       1, 0, 0⟩ := by
  rw [trackTargetM, trackQ_x_eval, quatToM3]
  have hu : Real.sqrt 2 ^ 2 = 2 := Real.sq_sqrt (by norm_num)
  have hu0 : Real.sqrt 2 ≠ 0 := by positivity
  have hsc : Real.sin 0.09 ^ 2 + Real.cos 0.09 ^ 2 = 1 := Real.sin_sq_add_cos_sq 0.09
  simp only [M3.mk.injEq]
  refine ⟨?_, ?_, ?_, ?_, ?_, ?_, ?_, ?_, ?_⟩ <;>
    · field_simp
      try nlinarith [hu, hsc]

/-- The off-centre entries make the XYZ Euler decomposition of the tracked
orientation land in the regular branch. -/
theorem trackM_m13_bound :
    |Real.sin 0.09 ^ 2 - Real.cos 0.09 ^ 2| < 0.9999999 := by
  have hsc : Real.sin 0.09 ^ 2 + Real.cos 0.09 ^ 2 = 1 := Real.sin_sq_add_cos_sq 0.09
  rw [abs_lt]
  constructor
  · nlinarith [sin009_gt, sin009_pos]
  · nlinarith [sin009_lt, sin009_pos]

/-- The XYZ Euler decomposition of the tracked orientation: both the x and
the z angles come out as minus a quarter turn, far from the fixed -0.18
tilt the free mode will reapply. -/
theorem euler_track_x :
    eulerFromM3 (trackTargetM ⟨1, 0, 0⟩) =
      ⟨-(Real.pi / 2), Real.arcsin (Real.sin 0.09 ^ 2 - Real.cos 0.09 ^ 2),
       -(Real.pi / 2)⟩ := by
  have hsc : Real.sin 0.09 ^ 2 + Real.cos 0.09 ^ 2 = 1 := Real.sin_sq_add_cos_sq 0.09
  have hneg : -(2 * (Real.cos 0.09 * Real.sin 0.09)) < 0 := by
    nlinarith [sin009_pos, cos009_pos]
  have hneg' : -(2 * (Real.sin 0.09 * Real.cos 0.09)) < 0 := by
    nlinarith [sin009_pos, cos009_pos]
  rw [trackM_x_eval, eulerFromM3]
  rw [if_pos (by simpa using trackM_m13_bound)]
  have hclamp : clampR (Real.sin 0.09 ^ 2 - Real.cos 0.09 ^ 2) (-1) 1 =
      Real.sin 0.09 ^ 2 - Real.cos 0.09 ^ 2 := by
    rw [clampR, min_eq_right (by nlinarith [hsc, sq_nonneg (Real.cos 0.09)]),
      max_eq_right (by nlinarith [hsc, sq_nonneg (Real.sin 0.09)])]
  have hatan : ∀ y : ℝ, y < 0 → atan2R y 0 = -(Real.pi / 2) := by
    intro y hy
    rw [atan2R, if_neg (by norm_num), if_neg (by norm_num),
      if_neg (by linarith), if_pos hy]
  simp only [EulerAngles.mk.injEq]
  exact ⟨hatan _ hneg, by rw [hclamp], hatan _ hneg'⟩

/-- The orientation the globe snaps to on the first free-mode frame after
deselecting: its (2,1) entry is `cos(0.18)^2`, while the orientation at
the moment of deselection has 0 there. -/
theorem resume_track_x_m21 :
    (resumeOrientation (trackTargetM ⟨1, 0, 0⟩)).m21 = Real.cos 0.18 ^ 2 := by
  have hsc : Real.sin 0.09 ^ 2 + Real.cos 0.09 ^ 2 = 1 := Real.sin_sq_add_cos_sq 0.09
  rw [resumeOrientation, captureOffsets, euler_track_x]
  have hx : 0.12 + (-(Real.pi / 2) - 0.12) = -(Real.pi / 2) := by ring
  simp only []
  rw [hx, eulerXYZM]
  simp only [Real.cos_neg, Real.sin_neg, Real.cos_pi_div_two, Real.sin_pi_div_two]
  rw [Real.sin_arcsin (by nlinarith [hsc, sq_nonneg (Real.sin 0.09)])
    (by nlinarith [hsc, sq_nonneg (Real.cos 0.09)])]
  have h2 : Real.cos 0.18 = Real.cos 0.09 ^ 2 - Real.sin 0.09 ^ 2 := by
    rw [show (0.18 : ℝ) = 2 * 0.09 by norm_num, Real.cos_two_mul']
  rw [h2]
  ring

/-- C1: deselecting while the globe sits at the tracking orientation for a
flight at globe-local position `(1,0,0)` does not resume free mode at the
same orientation: the code stores only the x and y Euler components and
forces the z component back to -0.18, so the next frame's orientation
differs from the orientation at deselection (its (2,1) matrix entry jumps
from 0 to `cos(0.18)^2`), contradicting the no-jump requirement. -/
theorem claim_C1 :
    resumeOrientation (trackTargetM ⟨1, 0, 0⟩) ≠ trackTargetM ⟨1, 0, 0⟩ ∧
    (trackTargetM ⟨1, 0, 0⟩).m21 = 0 ∧
    (resumeOrientation (trackTargetM ⟨1, 0, 0⟩)).m21 = Real.cos 0.18 ^ 2 := by
  have hm21 : (trackTargetM ⟨1, 0, 0⟩).m21 = 0 := by rw [trackM_x_eval]
  have hcpos : 0 < Real.cos 0.18 := by
    have h3 := Real.pi_gt_three
    exact Real.cos_pos_of_mem_Ioo ⟨by linarith, by linarith⟩
  refine ⟨?_, hm21, resume_track_x_m21⟩
  intro h
  have h21 := congrArg M3.m21 h
  rw [resume_track_x_m21, hm21] at h21
  nlinarith [hcpos, h21]

end FlightRadar
